import Mathlib

/-!
Verification of the auctioneer client (`client.go`): a shallow embedding of
the dual-transport request dispatch (secure-first, insecure-fallback), the
request construction pipeline, and the constructors, together with theorems
about the transport-selection and error-classification behavior.

External collaborators (the network as seen through each `http.Client`, the
tracing adapter, URL parsing) are supplied as an environment of functions;
the dispatch logic itself is translated directly from the source.
-/

namespace Auctioneer

/-- Execution context handed to each call; `canceled` is true when the Go
`context.Context` is already canceled or past its deadline. -/
structure Ctx where
  canceled : Bool
deriving DecidableEq, Repr

/-- HTTP request as built by `rata.CreateRequest` and then mutated by the
client (`WithContext`, tracing headers, `Content-Type` header, and the
scheme rewrite performed by `doRequest` on fallback). -/
structure HttpRequest where
  method : String
  scheme : String
  host : String
  path : String
  headers : List (String × String)
  body : String
  ctx : Ctx
deriving DecidableEq, Repr

/-- HTTP response; the client only inspects `statusCode`. -/
structure HttpResponse where
  statusCode : Nat
  body : String
deriving DecidableEq, Repr

/-- Transport-level failure of an HTTP attempt (the error side of
`http.Client.Do`): either the request context was canceled/expired, or a
connection-level failure with a message. -/
inductive TransportErr where
  | canceled
  | connFailure (msg : String)
deriving DecidableEq, Repr

/-- Outcome of one `http.Client.Do` call: a response, or a transport error. -/
inductive NetResult where
  | ok (resp : HttpResponse)
  | err (e : TransportErr)
deriving DecidableEq, Repr

def NetResult.isErr : NetResult → Bool
  | .ok _ => false
  | .err _ => true

/-- Which of the two configured transports served an attempt. -/
inductive TransportKind where
  | secure
  | insecure
deriving DecidableEq, Repr

/-- One observed HTTP attempt: the transport used, the request exactly as
sent on that attempt, and its outcome. -/
structure Attempt where
  transport : TransportKind
  req : HttpRequest
  result : NetResult
deriving DecidableEq, Repr

/-- Behaviors of the external collaborators: the network as reached through
the secure and the insecure `http.Client`, the tracing adapter (a header
mutation applied to outbound requests), and the URL parser that splits the
configured base address into scheme and host. -/
structure Env where
  secureNet : HttpRequest → NetResult
  insecureNet : HttpRequest → NetResult
  trace : HttpRequest → List (String × String)
  parseBase : String → String × String

/-- Modelled from Go stdlib `net/http`: `Client.Do` on a request whose
context is already canceled or expired fails promptly with the context error
without reaching the network; otherwise the outcome is the transport's. -/
def clientDo (net : HttpRequest → NetResult) (req : HttpRequest) : NetResult :=
  if req.ctx.canceled then .err .canceled else net req

/-- Client configuration, from the `auctioneerClient` struct. The transports
are opaque handles (their behavior lives in `Env`); `insecureHTTPClient` is
the nullable fallback transport, `none` standing for Go's nil. -/
structure auctioneerClient where
  httpClient : Nat
  insecureHTTPClient : Option Nat
  url : String
  requireTLS : Bool
  traceRequest : Nat
deriving DecidableEq, Repr

/-- Opaque result of `cfhttp.NewTLSConfig`. -/
structure TLSConfig where
  id : Nat
deriving DecidableEq, Repr

/-- Constructor `NewClient` (lines 32-38): plain transport only;
`insecureHTTPClient` and `requireTLS` are left at their Go zero values
(nil and false). -/
def NewClient (auctioneerURL : String) (tracer : Nat) : auctioneerClient :=
  { httpClient := 0
    insecureHTTPClient := none
    url := auctioneerURL
    requireTLS := false
    traceRequest := tracer }

/-- Constructor `NewSecureClient` (lines 40-62): `tlsConfig` is the outcome
of `cfhttp.NewTLSConfig(certFile, keyFile, caFile)` (the collaborator loading
the TLS material from files); `transportOk` is whether the fresh client's
transport is an `*http.Transport` (the type assertion at line 49). On
success both transports are stored, unconditionally of `requireTLS`. -/
def NewSecureClient (auctioneerURL : String) (tlsConfig : Except String TLSConfig)
    (transportOk : Bool) (requireTLS : Bool) (tracer : Nat) :
    Except String auctioneerClient :=
  match tlsConfig with
  | .error e => .error e
  | .ok _ =>
    if transportOk then
      .ok { httpClient := 1
            insecureHTTPClient := some 2
            url := auctioneerURL
            requireTLS := requireTLS
            traceRequest := tracer }
    else
      .error "Invalid transport"

/-- One entry of the rata route table. -/
structure Route where
  name : String
  method : String
  path : String
deriving DecidableEq, Repr

/-- Modelled from the spec: the route table (`Routes` and the two route-name
constants) is defined in a repository file outside this fragment; §3 and §6
of the spec give it as a static table of two POST entries with fixed paths. -/
def Routes : List Route :=
  [ { name := "CreateLRPAuctions", method := "POST", path := "/v1/lrp_auctions" },
    { name := "CreateTaskAuctions", method := "POST", path := "/v1/task_auctions" } ]

def CreateLRPAuctionsRoute : String := "CreateLRPAuctions"

def CreateTaskAuctionsRoute : String := "CreateTaskAuctions"

/-- Model of `rata.CreateRequest`: resolve the named route against the parsed
base address and build the request carrying the serialized body; `none` when
the route name is unknown. The fresh request starts from the background
context (not canceled). -/
def createRequest (base : String × String) (routes : List Route)
    (routeName : String) (body : String) : Option HttpRequest :=
  match routes.find? (fun r => r.name == routeName) with
  | none => none
  | some r =>
    some { method := r.method
           scheme := base.1
           host := base.2
           path := r.path
           headers := []
           body := body
           ctx := { canceled := false } }

/-- Go `http.Header.Set`: replace any existing values for the key. -/
def headerSet (hs : List (String × String)) (k v : String) :
    List (String × String) :=
  (k, v) :: hs.filter (fun p => p.1 != k)

/-- Go `json.Marshal` on a non-nil slice: a JSON array of the elements' own
serializations, in slice order. -/
def marshalList (xs : List String) : String :=
  "[" ++ String.intercalate "," xs ++ "]"

/-- Go slice value: `nilSlice` is Go's nil slice and `mk` a non-nil slice
with the given elements. Both are legal batch arguments; they differ under
`json.Marshal`. -/
inductive GoSlice (α : Type) where
  | nilSlice
  | mk (elems : List α)
deriving DecidableEq, Repr

def GoSlice.mapElems (f : α → β) : GoSlice α → GoSlice β
  | .nilSlice => .nilSlice
  | .mk xs => .mk (xs.map f)

/-- Go `json.Marshal` on a slice value: a nil slice encodes as `null`; a
non-nil slice (also when empty) encodes as the JSON array of its elements'
serializations in order. -/
def marshalSlice (xs : GoSlice String) : String :=
  match xs with
  | .nilSlice => "null"
  | .mk ys => marshalList ys

/-- LRP start request; its internal shape is opaque to the dispatcher, so it
is represented by its own JSON serialization (the type itself is defined in
a repository file outside this fragment). -/
structure LRPStartRequest where
  json : String
deriving DecidableEq, Repr

/-- Task start request, represented like `LRPStartRequest`. -/
structure TaskStartRequest where
  json : String
deriving DecidableEq, Repr

/-- Request construction shared by both operations: `CreateRequest`, then
`WithContext`, then the tracing header mutation, then
`Header.Set("Content-Type", "application/json")`. -/
def buildRequest (env : Env) (c : auctioneerClient) (ctx : Ctx)
    (routeName : String) (payload : String) : Option HttpRequest :=
  match createRequest (env.parseBase c.url) Routes routeName payload with
  | none => none
  | some req0 =>
    let req1 := { req0 with ctx := ctx }
    let req2 := { req1 with headers := env.trace req1 }
    some { req2 with headers := headerSet req2.headers "Content-Type" "application/json" }

/-- The request both operations end up sending, written as a total function
(used in statements; `buildRequest` on a known route always yields it). -/
def builtRequest (env : Env) (c : auctioneerClient) (ctx : Ctx)
    (method path payload : String) : HttpRequest :=
  let base := env.parseBase c.url
  let req0 : HttpRequest :=
    { method := method
      scheme := base.1
      host := base.2
      path := path
      headers := []
      body := payload
      ctx := { canceled := false } }
  let req1 := { req0 with ctx := ctx }
  let req2 := { req1 with headers := env.trace req1 }
  { req2 with headers := headerSet req2.headers "Content-Type" "application/json" }

/-- Errors a submit call can return, classifying the Go error values:
`routing` for a `CreateRequest` failure, `transport` for a `doRequest`
error, `serviceError` for the non-202 status error built at lines 87-89
and 117-119 (it carries the status code and `http.StatusText`). -/
inductive SubmitError where
  | routing (routeName : String)
  | transport (e : TransportErr)
  | serviceError (code : Nat) (text : String)
deriving DecidableEq, Repr

/-- Modelled from Go stdlib `net/http.StatusText`, restricted to the codes
exercised here; unknown codes give the empty string as in the stdlib. -/
def statusText (code : Nat) : String :=
  if code = 200 then "OK"
  else if code = 202 then "Accepted"
  else if code = 400 then "Bad Request"
  else if code = 404 then "Not Found"
  else if code = 500 then "Internal Server Error"
  else if code = 503 then "Service Unavailable"
  else ""

/-- Outcome of `doRequest`: the returned (response, error) pair collapsed to
`NetResult`, together with the trace of HTTP attempts actually made. -/
structure DoOutcome where
  result : NetResult
  attempts : List Attempt
deriving DecidableEq, Repr

/-- Dispatch `doRequest` (lines 124-135): try the secure client; on any error
from it, if TLS is not required and an insecure client is configured, rewrite
the URL scheme to "http" and return the insecure client's outcome; otherwise
return the original outcome. -/
def doRequest (env : Env) (c : auctioneerClient) (req : HttpRequest) : DoOutcome :=
  match clientDo env.secureNet req with
  | .ok resp =>
    { result := .ok resp
      attempts := [{ transport := .secure, req := req, result := .ok resp }] }
  | .err e =>
    if !c.requireTLS && c.insecureHTTPClient.isSome then
      let req2 := { req with scheme := "http" }
      let r2 := clientDo env.insecureNet req2
      { result := r2
        attempts := [{ transport := .secure, req := req, result := .err e },
                     { transport := .insecure, req := req2, result := r2 }] }
    else
      { result := .err e
        attempts := [{ transport := .secure, req := req, result := .err e }] }

/-- Result of one submit call: the receiver's configuration after the call
(threaded explicitly; the Go methods never assign to it), the returned
error (`none` is Go's nil), and the attempt trace. -/
structure CallOutcome where
  clientAfter : auctioneerClient
  result : Option SubmitError
  attempts : List Attempt
deriving DecidableEq, Repr

/-- Status classification shared by both operations (lines 81-91 and
111-121): a `doRequest` error is returned as-is; a response with status
other than 202 becomes the formatted status error; 202 is success. -/
def classify (c : auctioneerClient) (dr : DoOutcome) : CallOutcome :=
  match dr.result with
  | .err e => { clientAfter := c, result := some (.transport e), attempts := dr.attempts }
  | .ok resp =>
    if resp.statusCode ≠ 202 then
      { clientAfter := c
        result := some (.serviceError resp.statusCode (statusText resp.statusCode))
        attempts := dr.attempts }
    else
      { clientAfter := c, result := none, attempts := dr.attempts }

/-- Operation `RequestLRPAuctions` (lines 64-92): marshal the batch, build
the request on the LRP route, dispatch through `doRequest`, classify. -/
def RequestLRPAuctions (env : Env) (c : auctioneerClient) (ctx : Ctx)
    (lrpStarts : List LRPStartRequest) : CallOutcome :=
  let payload := marshalList (lrpStarts.map LRPStartRequest.json)
  match buildRequest env c ctx CreateLRPAuctionsRoute payload with
  | none => { clientAfter := c, result := some (.routing CreateLRPAuctionsRoute), attempts := [] }
  | some req =>
    let dr := doRequest env c req
    match dr.result with
    | .err e => { clientAfter := c, result := some (.transport e), attempts := dr.attempts }
    | .ok resp =>
      if resp.statusCode ≠ 202 then
        { clientAfter := c
          result := some (.serviceError resp.statusCode (statusText resp.statusCode))
          attempts := dr.attempts }
      else
        { clientAfter := c, result := none, attempts := dr.attempts }

/-- Operation `RequestTaskAuctions` (lines 94-122): identical to the LRP
operation but on the task route. -/
def RequestTaskAuctions (env : Env) (c : auctioneerClient) (ctx : Ctx)
    (tasks : List TaskStartRequest) : CallOutcome :=
  let payload := marshalList (tasks.map TaskStartRequest.json)
  match buildRequest env c ctx CreateTaskAuctionsRoute payload with
  | none => { clientAfter := c, result := some (.routing CreateTaskAuctionsRoute), attempts := [] }
  | some req =>
    let dr := doRequest env c req
    match dr.result with
    | .err e => { clientAfter := c, result := some (.transport e), attempts := dr.attempts }
    | .ok resp =>
      if resp.statusCode ≠ 202 then
        { clientAfter := c
          result := some (.serviceError resp.statusCode (statusText resp.statusCode))
          attempts := dr.attempts }
      else
        { clientAfter := c, result := none, attempts := dr.attempts }

/-- Operation `RequestLRPAuctions` (lines 64-92) over the batch as a Go
slice value, so that Go's nil slice is representable: identical to
`RequestLRPAuctions` except that the batch is marshalled by `marshalSlice`
(a nil batch marshals to null, as `json.Marshal` does at line 68). -/
def RequestLRPAuctionsSlice (env : Env) (c : auctioneerClient) (ctx : Ctx)
    (lrpStarts : GoSlice LRPStartRequest) : CallOutcome :=
  let payload := marshalSlice (lrpStarts.mapElems LRPStartRequest.json)
  match buildRequest env c ctx CreateLRPAuctionsRoute payload with
  | none => { clientAfter := c, result := some (.routing CreateLRPAuctionsRoute), attempts := [] }
  | some req =>
    let dr := doRequest env c req
    match dr.result with
    | .err e => { clientAfter := c, result := some (.transport e), attempts := dr.attempts }
    | .ok resp =>
      if resp.statusCode ≠ 202 then
        { clientAfter := c
          result := some (.serviceError resp.statusCode (statusText resp.statusCode))
          attempts := dr.attempts }
      else
        { clientAfter := c, result := none, attempts := dr.attempts }

/-- Operation `RequestTaskAuctions` (lines 94-122) over the batch as a Go
slice value, like `RequestLRPAuctionsSlice` (`json.Marshal` at line 98). -/
def RequestTaskAuctionsSlice (env : Env) (c : auctioneerClient) (ctx : Ctx)
    (tasks : GoSlice TaskStartRequest) : CallOutcome :=
  let payload := marshalSlice (tasks.mapElems TaskStartRequest.json)
  match buildRequest env c ctx CreateTaskAuctionsRoute payload with
  | none => { clientAfter := c, result := some (.routing CreateTaskAuctionsRoute), attempts := [] }
  | some req =>
    let dr := doRequest env c req
    match dr.result with
    | .err e => { clientAfter := c, result := some (.transport e), attempts := dr.attempts }
    | .ok resp =>
      if resp.statusCode ≠ 202 then
        { clientAfter := c
          result := some (.serviceError resp.statusCode (statusText resp.statusCode))
          attempts := dr.attempts }
      else
        { clientAfter := c, result := none, attempts := dr.attempts }

/-- Background (not canceled) context, for concrete scenarios. -/
def ctxLive : Ctx := { canceled := false }

/-- Response 202 Accepted. -/
def respAccepted : HttpResponse := { statusCode := 202, body := "" }

/-- Response 500 Internal Server Error. -/
def resp500 : HttpResponse := { statusCode := 500, body := "" }

/-- Environment where both transports reach a service answering 202. -/
def envAccept : Env :=
  { secureNet := fun _ => .ok respAccepted
    insecureNet := fun _ => .ok respAccepted
    trace := fun r => r.headers
    parseBase := fun _ => ("https", "example.com") }

/-- Environment where the secure transport gets a 500 response. -/
def envServerError : Env :=
  { secureNet := fun _ => .ok resp500
    insecureNet := fun _ => .ok resp500
    trace := fun r => r.headers
    parseBase := fun _ => ("https", "example.com") }

/-- Environment where both transports fail at the connection level. -/
def envRefusedBoth : Env :=
  { secureNet := fun _ => .err (.connFailure "secure connection refused")
    insecureNet := fun _ => .err (.connFailure "insecure connection refused")
    trace := fun r => r.headers
    parseBase := fun _ => ("https", "example.com") }

/-- Environment where the secure transport is refused and the insecure one
answers 202. -/
def envRefusedThenAccept : Env :=
  { secureNet := fun _ => .err (.connFailure "secure connection refused")
    insecureNet := fun _ => .ok respAccepted
    trace := fun r => r.headers
    parseBase := fun _ => ("https", "example.com") }

/-- Configuration with both transports, TLS not required (as produced by
`NewSecureClient` with `requireTLS = false`). -/
def clientBoth : auctioneerClient :=
  { httpClient := 1
    insecureHTTPClient := some 2
    url := "https://example.com"
    requireTLS := false
    traceRequest := 0 }

/-- Configuration produced by `NewSecureClient` with `requireTLS = true`. -/
def secureClientTLSTrue : auctioneerClient :=
  { httpClient := 1
    insecureHTTPClient := some 2
    url := "https://bbs.example.com"
    requireTLS := true
    traceRequest := 0 }

/-- Request sent on the LRP route under `envServerError`. -/
def lrpReq500 : HttpRequest :=
  builtRequest envServerError clientBoth ctxLive "POST" "/v1/lrp_auctions" (marshalList [])

/-- Request sent on the task route under `envServerError`. -/
def taskReq500 : HttpRequest :=
  builtRequest envServerError clientBoth ctxLive "POST" "/v1/task_auctions" (marshalList [])

/-- The single (secure) attempt observed under `envServerError`, LRP route. -/
def att500 : Attempt := { transport := .secure, req := lrpReq500, result := .ok resp500 }

/-- The single (secure) attempt observed under `envServerError`, task route. -/
def attTask500 : Attempt := { transport := .secure, req := taskReq500, result := .ok resp500 }

/-- Request sent on the LRP route under `envRefusedBoth`. -/
def lrpReqRB : HttpRequest :=
  builtRequest envRefusedBoth clientBoth ctxLive "POST" "/v1/lrp_auctions" (marshalList [])

/-- Request sent on the task route under `envRefusedBoth`. -/
def taskReqRB : HttpRequest :=
  builtRequest envRefusedBoth clientBoth ctxLive "POST" "/v1/task_auctions" (marshalList [])

/-- First (secure) attempt under `envRefusedBoth`, LRP route. -/
def a1RB : Attempt :=
  { transport := .secure, req := lrpReqRB, result := .err (.connFailure "secure connection refused") }

/-- Second (insecure) attempt under `envRefusedBoth`, LRP route. -/
def a2RB : Attempt :=
  { transport := .insecure, req := { lrpReqRB with scheme := "http" }
    result := .err (.connFailure "insecure connection refused") }

/-- First (secure) attempt under `envRefusedBoth`, task route. -/
def b1RB : Attempt :=
  { transport := .secure, req := taskReqRB, result := .err (.connFailure "secure connection refused") }

/-- Second (insecure) attempt under `envRefusedBoth`, task route. -/
def b2RB : Attempt :=
  { transport := .insecure, req := { taskReqRB with scheme := "http" }
    result := .err (.connFailure "insecure connection refused") }

/-- Request sent on the LRP route under `envRefusedThenAccept`. -/
def lrpReqRA : HttpRequest :=
  builtRequest envRefusedThenAccept clientBoth ctxLive "POST" "/v1/lrp_auctions" (marshalList [])

/-- Request sent on the task route under `envRefusedThenAccept`. -/
def taskReqRA : HttpRequest :=
  builtRequest envRefusedThenAccept clientBoth ctxLive "POST" "/v1/task_auctions" (marshalList [])

/-- First (secure) attempt under `envRefusedThenAccept`, LRP route. -/
def a1RA : Attempt :=
  { transport := .secure, req := lrpReqRA, result := .err (.connFailure "secure connection refused") }

/-- Second (insecure) attempt under `envRefusedThenAccept`, LRP route. -/
def a2RA : Attempt :=
  { transport := .insecure, req := { lrpReqRA with scheme := "http" }, result := .ok respAccepted }

/-- First (secure) attempt under `envRefusedThenAccept`, task route. -/
def b1RA : Attempt :=
  { transport := .secure, req := taskReqRA, result := .err (.connFailure "secure connection refused") }

/-- Second (insecure) attempt under `envRefusedThenAccept`, task route. -/
def b2RA : Attempt :=
  { transport := .insecure, req := { taskReqRA with scheme := "http" }, result := .ok respAccepted }

/-- Case analysis of `doRequest`: either the secure attempt yields a response
and is the only attempt; or it fails, the fallback is eligible, and the
outcome is the insecure attempt's on the scheme-rewritten request; or it
fails, the fallback is not eligible, and the failure is returned as-is. -/
theorem doRequest_shape (env : Env) (c : auctioneerClient) (req : HttpRequest) :
    (∃ resp, clientDo env.secureNet req = .ok resp ∧
      doRequest env c req =
        { result := .ok resp
          attempts := [{ transport := .secure, req := req, result := .ok resp }] }) ∨
    (∃ e, clientDo env.secureNet req = .err e ∧
      (c.requireTLS = false ∧ c.insecureHTTPClient.isSome = true) ∧
      doRequest env c req =
        { result := clientDo env.insecureNet { req with scheme := "http" }
          attempts := [{ transport := .secure, req := req, result := .err e },
                       { transport := .insecure, req := { req with scheme := "http" },
                         result := clientDo env.insecureNet { req with scheme := "http" } }] }) ∨
    (∃ e, clientDo env.secureNet req = .err e ∧
      ¬(c.requireTLS = false ∧ c.insecureHTTPClient.isSome = true) ∧
      doRequest env c req =
        { result := .err e
          attempts := [{ transport := .secure, req := req, result := .err e }] }) := by
  cases h : clientDo env.secureNet req with
  | ok resp =>
    exact Or.inl ⟨resp, rfl, by simp [doRequest, h]⟩
  | err e =>
    by_cases hb : (!c.requireTLS && c.insecureHTTPClient.isSome) = true
    · refine Or.inr (Or.inl ⟨e, rfl, ?_, ?_⟩)
      · simpa using hb
      · simp [doRequest, h, hb]
    · refine Or.inr (Or.inr ⟨e, rfl, ?_, ?_⟩)
      · intro hc
        exact hb (by simp [hc.1, hc.2])
      · simp [doRequest, h, hb]

theorem classify_attempts (c : auctioneerClient) (dr : DoOutcome) :
    (classify c dr).attempts = dr.attempts := by
  cases h : dr.result with
  | ok resp =>
    simp only [classify, h]
    split <;> rfl
  | err e => simp [classify, h]

theorem classify_clientAfter (c : auctioneerClient) (dr : DoOutcome) :
    (classify c dr).clientAfter = c := by
  cases h : dr.result with
  | ok resp =>
    simp only [classify, h]
    split <;> rfl
  | err e => simp [classify, h]

theorem classify_err (c : auctioneerClient) (dr : DoOutcome) (e : TransportErr)
    (h : dr.result = .err e) : (classify c dr).result = some (.transport e) := by
  simp [classify, h]

theorem classify_ok (c : auctioneerClient) (dr : DoOutcome) (resp : HttpResponse)
    (h : dr.result = .ok resp) :
    (classify c dr).result =
      if resp.statusCode ≠ 202 then
        some (.serviceError resp.statusCode (statusText resp.statusCode))
      else none := by
  simp only [classify, h]
  split <;> simp_all

theorem RequestLRPAuctions_eq (env : Env) (c : auctioneerClient) (ctx : Ctx)
    (lrps : List LRPStartRequest) :
    RequestLRPAuctions env c ctx lrps =
      classify c (doRequest env c (builtRequest env c ctx "POST" "/v1/lrp_auctions"
        (marshalList (lrps.map LRPStartRequest.json)))) := rfl

theorem RequestTaskAuctions_eq (env : Env) (c : auctioneerClient) (ctx : Ctx)
    (tasks : List TaskStartRequest) :
    RequestTaskAuctions env c ctx tasks =
      classify c (doRequest env c (builtRequest env c ctx "POST" "/v1/task_auctions"
        (marshalList (tasks.map TaskStartRequest.json)))) := rfl

theorem RequestLRPAuctionsSlice_eq (env : Env) (c : auctioneerClient) (ctx : Ctx)
    (lrpStarts : GoSlice LRPStartRequest) :
    RequestLRPAuctionsSlice env c ctx lrpStarts =
      classify c (doRequest env c (builtRequest env c ctx "POST" "/v1/lrp_auctions"
        (marshalSlice (lrpStarts.mapElems LRPStartRequest.json)))) := rfl

theorem RequestTaskAuctionsSlice_eq (env : Env) (c : auctioneerClient) (ctx : Ctx)
    (tasks : GoSlice TaskStartRequest) :
    RequestTaskAuctionsSlice env c ctx tasks =
      classify c (doRequest env c (builtRequest env c ctx "POST" "/v1/task_auctions"
        (marshalSlice (tasks.mapElems TaskStartRequest.json)))) := rfl

theorem RequestLRPAuctionsSlice_mk (env : Env) (c : auctioneerClient) (ctx : Ctx)
    (lrps : List LRPStartRequest) :
    RequestLRPAuctionsSlice env c ctx (.mk lrps) = RequestLRPAuctions env c ctx lrps := rfl

theorem RequestTaskAuctionsSlice_mk (env : Env) (c : auctioneerClient) (ctx : Ctx)
    (tasks : List TaskStartRequest) :
    RequestTaskAuctionsSlice env c ctx (.mk tasks) = RequestTaskAuctions env c ctx tasks := rfl

theorem doRequest_attempts_spec (env : Env) (c : auctioneerClient) (req : HttpRequest) :
    (doRequest env c req).attempts.length ≤ 2 ∧
    ((doRequest env c req).attempts.map Attempt.transport = [.secure] ∨
     (doRequest env c req).attempts.map Attempt.transport = [.secure, .insecure]) ∧
    ((doRequest env c req).attempts.length = 2 ↔
      ((doRequest env c req).attempts.head?.map fun a => a.result.isErr) = some true ∧
       c.requireTLS = false ∧ c.insecureHTTPClient.isSome = true) := by
  rcases doRequest_shape env c req with ⟨resp, h, hd⟩ | ⟨e, h, ⟨h1, h2⟩, hd⟩ | ⟨e, h, hn, hd⟩
  · simp [hd, NetResult.isErr]
  · simp [hd, NetResult.isErr, h1, h2]
  · simp [hd, NetResult.isErr]
    intro h1
    cases hi : c.insecureHTTPClient with
    | none => rfl
    | some v => exact absurd ⟨h1, by simp [hi]⟩ hn

theorem doRequest_last_ok (env : Env) (c : auctioneerClient) (req : HttpRequest)
    (a : Attempt) (resp : HttpResponse)
    (h1 : (doRequest env c req).attempts.getLast? = some a)
    (h2 : a.result = .ok resp) :
    (doRequest env c req).result = .ok resp := by
  rcases doRequest_shape env c req with ⟨r, hc, hd⟩ | ⟨e, hc, _, hd⟩ | ⟨e, hc, _, hd⟩ <;>
      rw [hd] at h1 ⊢ <;> simp at h1 <;> rw [← h1] at h2 <;> exact h2

theorem doRequest_head_ok (env : Env) (c : auctioneerClient) (req : HttpRequest)
    (a : Attempt) (resp : HttpResponse)
    (h1 : (doRequest env c req).attempts.head? = some a)
    (h2 : a.result = .ok resp) :
    (doRequest env c req).attempts.length = 1 := by
  rcases doRequest_shape env c req with ⟨r, hc, hd⟩ | ⟨e, hc, _, hd⟩ | ⟨e, hc, _, hd⟩
  · rw [hd]
    rfl
  · rw [hd] at h1
    simp at h1
    rw [← h1] at h2
    simp at h2
  · rw [hd]
    rfl

theorem doRequest_two_attempts (env : Env) (c : auctioneerClient) (req : HttpRequest)
    (a1 a2 : Attempt) (h : (doRequest env c req).attempts = [a1, a2]) :
    (doRequest env c req).result = a2.result ∧
    a1.transport = .secure ∧ a2.transport = .insecure ∧
    a1.req = req ∧ a2.req = { req with scheme := "http" } := by
  rcases doRequest_shape env c req with ⟨r, hc, hd⟩ | ⟨e, hc, _, hd⟩ | ⟨e, hc, _, hd⟩
  · rw [hd] at h; simp at h
  · rw [hd] at h ⊢
    simp only [List.cons.injEq, and_true] at h
    obtain ⟨h1, h2⟩ := h
    subst h1
    subst h2
    simp
  · rw [hd] at h; simp at h

theorem doRequest_canceled (env : Env) (c : auctioneerClient) (req : HttpRequest)
    (h : req.ctx.canceled = true) :
    (doRequest env c req).result = .err .canceled ∧
    ((doRequest env c req).attempts.all fun a => a.result == .err .canceled) = true := by
  have h1 : clientDo env.secureNet req = .err .canceled := by simp [clientDo, h]
  have h2 : clientDo env.insecureNet { req with scheme := "http" } = .err .canceled := by
    simp [clientDo, h]
  unfold doRequest
  rw [h1]
  by_cases hb : (!c.requireTLS && c.insecureHTTPClient.isSome) = true <;> simp [hb, h2]

theorem doRequest_no_insecure (env : Env) (c : auctioneerClient) (req : HttpRequest)
    (h : c.insecureHTTPClient = none) :
    (doRequest env c req).attempts.map Attempt.transport = [.secure] := by
  rcases doRequest_shape env c req with ⟨r, hc, hd⟩ | ⟨e, hc, ⟨h1, h2⟩, hd⟩ | ⟨e, hc, _, hd⟩
  · simp [hd]
  · rw [h] at h2; simp at h2
  · simp [hd]

theorem doRequest_requireTLS_secure_only (env : Env) (c : auctioneerClient)
    (req : HttpRequest) (h : c.requireTLS = true) :
    (doRequest env c req).attempts.map Attempt.transport = [.secure] := by
  rcases doRequest_shape env c req with ⟨r, hc, hd⟩ | ⟨e, hc, ⟨h1, h2⟩, hd⟩ | ⟨e, hc, _, hd⟩
  · simp [hd]
  · rw [h] at h1; simp at h1
  · simp [hd]

theorem doRequest_attempts_body (env : Env) (c : auctioneerClient) (req : HttpRequest) :
    ((doRequest env c req).attempts.all fun a => a.req.body == req.body) = true := by
  rcases doRequest_shape env c req with ⟨r, hc, hd⟩ | ⟨e, hc, _, hd⟩ | ⟨e, hc, _, hd⟩ <;>
    simp [hd]

theorem doRequest_attempts_ne_nil (env : Env) (c : auctioneerClient) (req : HttpRequest) :
    (doRequest env c req).attempts ≠ [] := by
  rcases doRequest_shape env c req with ⟨r, hc, hd⟩ | ⟨e, hc, _, hd⟩ | ⟨e, hc, _, hd⟩ <;>
    simp [hd]

theorem builtRequest_ctx (env : Env) (c : auctioneerClient) (ctx : Ctx)
    (method path payload : String) :
    (builtRequest env c ctx method path payload).ctx = ctx := rfl

theorem builtRequest_body (env : Env) (c : auctioneerClient) (ctx : Ctx)
    (method path payload : String) :
    (builtRequest env c ctx method path payload).body = payload := rfl

/-- C1: for every submit call, the request is attempted first on the secure
transport; a second attempt (on the insecure transport) occurs if and only if
the first attempt failed at the transport level, `requireTLS` is false and an
insecure transport is configured; at most two attempts are ever made. -/
theorem c1_transport_selection (env : Env) (c : auctioneerClient) (ctx : Ctx)
    (lrps : List LRPStartRequest) (tasks : List TaskStartRequest) :
    ((RequestLRPAuctions env c ctx lrps).attempts.length ≤ 2 ∧
     ((RequestLRPAuctions env c ctx lrps).attempts.map Attempt.transport = [.secure] ∨
      (RequestLRPAuctions env c ctx lrps).attempts.map Attempt.transport =
        [.secure, .insecure]) ∧
     ((RequestLRPAuctions env c ctx lrps).attempts.length = 2 ↔
       ((RequestLRPAuctions env c ctx lrps).attempts.head?.map
           fun a => a.result.isErr) = some true ∧
        c.requireTLS = false ∧ c.insecureHTTPClient.isSome = true)) ∧
    ((RequestTaskAuctions env c ctx tasks).attempts.length ≤ 2 ∧
     ((RequestTaskAuctions env c ctx tasks).attempts.map Attempt.transport = [.secure] ∨
      (RequestTaskAuctions env c ctx tasks).attempts.map Attempt.transport =
        [.secure, .insecure]) ∧
     ((RequestTaskAuctions env c ctx tasks).attempts.length = 2 ↔
       ((RequestTaskAuctions env c ctx tasks).attempts.head?.map
           fun a => a.result.isErr) = some true ∧
        c.requireTLS = false ∧ c.insecureHTTPClient.isSome = true)) := by
  constructor
  · rw [RequestLRPAuctions_eq, classify_attempts]
    exact doRequest_attempts_spec env c _
  · rw [RequestTaskAuctions_eq, classify_attempts]
    exact doRequest_attempts_spec env c _

/-- C2: whenever an HTTP attempt of a submit call completes with a response,
the call succeeds (nil error) iff the status code is 202; any other status
yields an error carrying the status code and status text; and a response on
the first attempt means no fallback retry happens, regardless of
`requireTLS`. -/
theorem c2_status_classification (env : Env) (c : auctioneerClient) (ctx : Ctx)
    (lrps : List LRPStartRequest) (tasks : List TaskStartRequest)
    (a b : Attempt) (resp1 resp2 : HttpResponse) :
    (((RequestLRPAuctions env c ctx lrps).attempts.getLast? = some a →
      a.result = .ok resp1 →
      (((RequestLRPAuctions env c ctx lrps).result = none ↔ resp1.statusCode = 202) ∧
       (resp1.statusCode ≠ 202 →
         (RequestLRPAuctions env c ctx lrps).result =
           some (.serviceError resp1.statusCode (statusText resp1.statusCode))))) ∧
     ((RequestLRPAuctions env c ctx lrps).attempts.head? = some a →
      a.result = .ok resp1 →
      (RequestLRPAuctions env c ctx lrps).attempts.length = 1)) ∧
    (((RequestTaskAuctions env c ctx tasks).attempts.getLast? = some b →
      b.result = .ok resp2 →
      (((RequestTaskAuctions env c ctx tasks).result = none ↔ resp2.statusCode = 202) ∧
       (resp2.statusCode ≠ 202 →
         (RequestTaskAuctions env c ctx tasks).result =
           some (.serviceError resp2.statusCode (statusText resp2.statusCode))))) ∧
     ((RequestTaskAuctions env c ctx tasks).attempts.head? = some b →
      b.result = .ok resp2 →
      (RequestTaskAuctions env c ctx tasks).attempts.length = 1)) := by
  constructor
  · rw [RequestLRPAuctions_eq, classify_attempts]
    refine ⟨fun h1 h2 => ?_, fun h1 h2 => doRequest_head_ok env c _ a resp1 h1 h2⟩
    have hres := doRequest_last_ok env c _ a resp1 h1 h2
    rw [classify_ok c _ resp1 hres]
    constructor
    · constructor
      · intro hnone
        by_contra hne
        simp [hne] at hnone
      · intro h202
        simp [h202]
    · intro hne
      simp [hne]
  · rw [RequestTaskAuctions_eq, classify_attempts]
    refine ⟨fun h1 h2 => ?_, fun h1 h2 => doRequest_head_ok env c _ b resp2 h1 h2⟩
    have hres := doRequest_last_ok env c _ b resp2 h1 h2
    rw [classify_ok c _ resp2 hres]
    constructor
    · constructor
      · intro hnone
        by_contra hne
        simp [hne] at hnone
      · intro h202
        simp [h202]
    · intro hne
      simp [hne]

/-- C2 witness: with the secure transport answering 500, both operations
return the status error carrying code 500 and its text, after one attempt. -/
theorem c2_status_classification_witness :
    (RequestLRPAuctions envServerError clientBoth ctxLive []).result =
        some (.serviceError 500 "Internal Server Error") ∧
    (RequestLRPAuctions envServerError clientBoth ctxLive []).attempts.length = 1 ∧
    (RequestTaskAuctions envServerError clientBoth ctxLive []).result =
        some (.serviceError 500 "Internal Server Error") ∧
    (RequestTaskAuctions envServerError clientBoth ctxLive []).attempts.length = 1 := by
  have h := c2_status_classification envServerError clientBoth ctxLive [] []
    att500 attTask500 resp500 resp500
  exact ⟨(h.1.1 (by decide) (by decide)).2 (by decide),
         h.1.2 (by decide) (by decide),
         (h.2.1 (by decide) (by decide)).2 (by decide),
         h.2.2 (by decide) (by decide)⟩

/-- C3 counterexample: `NewSecureClient` called with `requireTLS = true`
succeeds and the produced configuration still holds an insecure transport
handle, refuting "whenever requireTLS is true, no insecure transport handle
exists in the configuration". -/
theorem c3_insecure_handle_counterexample :
    ((NewSecureClient "https://bbs.example.com" (.ok { id := 0 }) true true 0).toOption.map
      fun c => (c.requireTLS, c.insecureHTTPClient.isSome)) = some (true, true) := by decide

/-- C3 (amended): every configuration produced by `NewSecureClient` holds an
insecure transport handle, regardless of `requireTLS`; only `NewClient`
omits it. The handle is never used when `requireTLS` is true: every attempt
then goes through the secure transport. -/
theorem c3_insecure_handle_amended (auctioneerURL : String)
    (tlsConfig : Except String TLSConfig) (transportOk : Bool)
    (requireTLS : Bool) (tracer : Nat) (c : auctioneerClient)
    (h : NewSecureClient auctioneerURL tlsConfig transportOk requireTLS tracer = .ok c)
    (env : Env) (ctx : Ctx)
    (lrps : List LRPStartRequest) (tasks : List TaskStartRequest) :
    c.insecureHTTPClient.isSome = true ∧
    (NewClient auctioneerURL tracer).insecureHTTPClient = none ∧
    (requireTLS = true →
      (RequestLRPAuctions env c ctx lrps).attempts.map Attempt.transport = [.secure] ∧
      (RequestTaskAuctions env c ctx tasks).attempts.map Attempt.transport = [.secure]) := by
  have hc : c.insecureHTTPClient = some 2 ∧ c.requireTLS = requireTLS := by
    cases tlsConfig with
    | error e => simp [NewSecureClient] at h
    | ok cfg =>
      cases transportOk with
      | false => simp [NewSecureClient] at h
      | true =>
        simp only [NewSecureClient, if_true] at h
        cases h
        exact ⟨rfl, rfl⟩
  refine ⟨by simp [hc.1], rfl, fun htls => ⟨?_, ?_⟩⟩
  · rw [RequestLRPAuctions_eq, classify_attempts]
    exact doRequest_requireTLS_secure_only env c _ (hc.2.trans htls)
  · rw [RequestTaskAuctions_eq, classify_attempts]
    exact doRequest_requireTLS_secure_only env c _ (hc.2.trans htls)

/-- C3 witness for the amended claim, at `requireTLS = true`. -/
theorem c3_insecure_handle_amended_witness :
    secureClientTLSTrue.insecureHTTPClient.isSome = true ∧
    (NewClient "https://bbs.example.com" 0).insecureHTTPClient = none ∧
    (true = true →
      (RequestLRPAuctions envAccept secureClientTLSTrue ctxLive []).attempts.map
          Attempt.transport = [.secure] ∧
      (RequestTaskAuctions envAccept secureClientTLSTrue ctxLive []).attempts.map
          Attempt.transport = [.secure]) :=
  c3_insecure_handle_amended "https://bbs.example.com" (.ok { id := 0 }) true true 0
    secureClientTLSTrue rfl envAccept ctxLive [] []

/-- C4 counterexample: the nil slice is a legal empty batch, and
`json.Marshal` encodes it as null, so both operations send the body "null"
for it — not a JSON array — refuting "an empty batch produces a request
whose body is an empty JSON array". -/
theorem c4_nil_batch_counterexample :
    ((RequestLRPAuctionsSlice envAccept clientBoth ctxLive GoSlice.nilSlice).attempts.map
       fun a => a.req.body) = ["null"] ∧
    ((RequestTaskAuctionsSlice envAccept clientBoth ctxLive GoSlice.nilSlice).attempts.map
       fun a => a.req.body) = ["null"] ∧
    ("null" : String) ≠ "[]" := by decide

/-- C4 (amended): every HTTP attempt of a submit call on a non-nil batch
carries exactly the JSON array of the batch's elements, in batch order, as
its body, and an empty non-nil batch gives the empty JSON array body; the
attempt list is never empty; a nil batch, however, is marshalled to null,
so its request body is not a JSON array. -/
theorem c4_json_array_body_amended (env : Env) (c : auctioneerClient) (ctx : Ctx)
    (lrps : List LRPStartRequest) (tasks : List TaskStartRequest) :
    ((RequestLRPAuctionsSlice env c ctx (.mk lrps)).attempts.all
       fun a => a.req.body == marshalList (lrps.map LRPStartRequest.json)) = true ∧
    (RequestLRPAuctionsSlice env c ctx (.mk lrps)).attempts ≠ [] ∧
    ((RequestTaskAuctionsSlice env c ctx (.mk tasks)).attempts.all
       fun a => a.req.body == marshalList (tasks.map TaskStartRequest.json)) = true ∧
    (RequestTaskAuctionsSlice env c ctx (.mk tasks)).attempts ≠ [] ∧
    marshalList [] = "[]" ∧
    ((RequestLRPAuctionsSlice env c ctx (.mk ([] : List LRPStartRequest))).attempts.all
       fun a => a.req.body == "[]") = true ∧
    ((RequestTaskAuctionsSlice env c ctx (.mk ([] : List TaskStartRequest))).attempts.all
       fun a => a.req.body == "[]") = true ∧
    ((RequestLRPAuctionsSlice env c ctx GoSlice.nilSlice).attempts.all
       fun a => a.req.body == "null") = true ∧
    ((RequestTaskAuctionsSlice env c ctx GoSlice.nilSlice).attempts.all
       fun a => a.req.body == "null") = true := by
  refine ⟨?_, ?_, ?_, ?_, rfl, ?_, ?_, ?_, ?_⟩
  · rw [RequestLRPAuctionsSlice_eq, classify_attempts]
    exact doRequest_attempts_body env c _
  · rw [RequestLRPAuctionsSlice_eq, classify_attempts]
    exact doRequest_attempts_ne_nil env c _
  · rw [RequestTaskAuctionsSlice_eq, classify_attempts]
    exact doRequest_attempts_body env c _
  · rw [RequestTaskAuctionsSlice_eq, classify_attempts]
    exact doRequest_attempts_ne_nil env c _
  · rw [RequestLRPAuctionsSlice_eq, classify_attempts]
    exact doRequest_attempts_body env c _
  · rw [RequestTaskAuctionsSlice_eq, classify_attempts]
    exact doRequest_attempts_body env c _
  · rw [RequestLRPAuctionsSlice_eq, classify_attempts]
    exact doRequest_attempts_body env c _
  · rw [RequestTaskAuctionsSlice_eq, classify_attempts]
    exact doRequest_attempts_body env c _

/-- C5 counterexample: on a context that is already canceled (with
`requireTLS` false and an insecure transport configured) the call does
proceed to the fallback retry: two attempts are observed, the second on the
insecure transport, refuting "must not proceed to the fallback retry". -/
theorem c5_canceled_fallback_counterexample :
    ((RequestLRPAuctions envAccept clientBoth { canceled := true } []).attempts.map
       Attempt.transport) = [.secure, .insecure] := by decide

/-- C5 (amended): on a context that is already canceled or expired, the
secure attempt fails with the cancellation error; the fallback branch is
still entered when eligible, but every attempt (including the fallback one)
fails immediately with the cancellation error, so the call returns the
cancellation error to the caller. -/
theorem c5_canceled_amended (env : Env) (c : auctioneerClient) (ctx : Ctx)
    (lrps : List LRPStartRequest) (tasks : List TaskStartRequest)
    (h : ctx.canceled = true) :
    (RequestLRPAuctions env c ctx lrps).result = some (.transport .canceled) ∧
    ((RequestLRPAuctions env c ctx lrps).attempts.all
       fun a => a.result == .err .canceled) = true ∧
    (RequestTaskAuctions env c ctx tasks).result = some (.transport .canceled) ∧
    ((RequestTaskAuctions env c ctx tasks).attempts.all
       fun a => a.result == .err .canceled) = true := by
  have hl := doRequest_canceled env c
    (builtRequest env c ctx "POST" "/v1/lrp_auctions"
      (marshalList (lrps.map LRPStartRequest.json))) (by rw [builtRequest_ctx]; exact h)
  have ht := doRequest_canceled env c
    (builtRequest env c ctx "POST" "/v1/task_auctions"
      (marshalList (tasks.map TaskStartRequest.json))) (by rw [builtRequest_ctx]; exact h)
  refine ⟨?_, ?_, ?_, ?_⟩
  · rw [RequestLRPAuctions_eq]
    exact classify_err c _ _ hl.1
  · rw [RequestLRPAuctions_eq, classify_attempts]
    exact hl.2
  · rw [RequestTaskAuctions_eq]
    exact classify_err c _ _ ht.1
  · rw [RequestTaskAuctions_eq, classify_attempts]
    exact ht.2

/-- C5 witness for the amended claim, at a concrete canceled context. -/
theorem c5_canceled_amended_witness :
    (RequestLRPAuctions envAccept clientBoth { canceled := true } []).result =
        some (.transport .canceled) ∧
    ((RequestLRPAuctions envAccept clientBoth { canceled := true } []).attempts.all
       fun a => a.result == .err .canceled) = true ∧
    (RequestTaskAuctions envAccept clientBoth { canceled := true } []).result =
        some (.transport .canceled) ∧
    ((RequestTaskAuctions envAccept clientBoth { canceled := true } []).attempts.all
       fun a => a.result == .err .canceled) = true :=
  c5_canceled_amended envAccept clientBoth { canceled := true } [] [] rfl

/-- C6: when the fallback retry is taken and it also fails, the error
returned by the call is the second (insecure-attempt) failure; the first
failure is never propagated. -/
theorem c6_second_failure_returned (env : Env) (c : auctioneerClient) (ctx : Ctx)
    (lrps : List LRPStartRequest) (tasks : List TaskStartRequest)
    (a1 a2 b1 b2 : Attempt) (e2 f2 : TransportErr) :
    ((RequestLRPAuctions env c ctx lrps).attempts = [a1, a2] →
      a2.result = .err e2 →
      (RequestLRPAuctions env c ctx lrps).result = some (.transport e2)) ∧
    ((RequestTaskAuctions env c ctx tasks).attempts = [b1, b2] →
      b2.result = .err f2 →
      (RequestTaskAuctions env c ctx tasks).result = some (.transport f2)) := by
  constructor
  · intro h1 h2
    rw [RequestLRPAuctions_eq, classify_attempts] at h1
    rw [RequestLRPAuctions_eq]
    have := (doRequest_two_attempts env c _ a1 a2 h1).1
    rw [h2] at this
    exact classify_err c _ _ this
  · intro h1 h2
    rw [RequestTaskAuctions_eq, classify_attempts] at h1
    rw [RequestTaskAuctions_eq]
    have := (doRequest_two_attempts env c _ b1 b2 h1).1
    rw [h2] at this
    exact classify_err c _ _ this

/-- C6 witness: both transports refuse the connection; the returned error is
the insecure attempt's failure, not the secure attempt's. -/
theorem c6_second_failure_returned_witness :
    (RequestLRPAuctions envRefusedBoth clientBoth ctxLive []).result =
        some (.transport (.connFailure "insecure connection refused")) ∧
    (RequestTaskAuctions envRefusedBoth clientBoth ctxLive []).result =
        some (.transport (.connFailure "insecure connection refused")) := by
  have h := c6_second_failure_returned envRefusedBoth clientBoth ctxLive [] []
    a1RB a2RB b1RB b2RB (.connFailure "insecure connection refused")
    (.connFailure "insecure connection refused")
  exact ⟨h.1 (by decide) (by decide), h.2 (by decide) (by decide)⟩

/-- C7: when a fallback retry happens, only the URL scheme of the retried
request is rewritten to "http"; method, host, path, headers, body and
context are identical to the original secure attempt's request. -/
theorem c7_fallback_frame (env : Env) (c : auctioneerClient) (ctx : Ctx)
    (lrps : List LRPStartRequest) (tasks : List TaskStartRequest)
    (a1 a2 b1 b2 : Attempt) :
    ((RequestLRPAuctions env c ctx lrps).attempts = [a1, a2] →
      a1.transport = .secure ∧ a2.transport = .insecure ∧
      a2.req.scheme = "http" ∧ a2.req.method = a1.req.method ∧
      a2.req.host = a1.req.host ∧ a2.req.path = a1.req.path ∧
      a2.req.headers = a1.req.headers ∧ a2.req.body = a1.req.body ∧
      a2.req.ctx = a1.req.ctx) ∧
    ((RequestTaskAuctions env c ctx tasks).attempts = [b1, b2] →
      b1.transport = .secure ∧ b2.transport = .insecure ∧
      b2.req.scheme = "http" ∧ b2.req.method = b1.req.method ∧
      b2.req.host = b1.req.host ∧ b2.req.path = b1.req.path ∧
      b2.req.headers = b1.req.headers ∧ b2.req.body = b1.req.body ∧
      b2.req.ctx = b1.req.ctx) := by
  constructor
  · intro h1
    rw [RequestLRPAuctions_eq, classify_attempts] at h1
    obtain ⟨-, ht1, ht2, hr1, hr2⟩ := doRequest_two_attempts env c _ a1 a2 h1
    refine ⟨ht1, ht2, ?_, ?_, ?_, ?_, ?_, ?_, ?_⟩ <;> simp [hr1, hr2]
  · intro h1
    rw [RequestTaskAuctions_eq, classify_attempts] at h1
    obtain ⟨-, ht1, ht2, hr1, hr2⟩ := doRequest_two_attempts env c _ b1 b2 h1
    refine ⟨ht1, ht2, ?_, ?_, ?_, ?_, ?_, ?_, ?_⟩ <;> simp [hr1, hr2]

/-- C7 witness: secure attempt refused, insecure retry accepted; the second
attempt differs from the first only in its URL scheme. -/
theorem c7_fallback_frame_witness :
    (a1RA.transport = .secure ∧ a2RA.transport = .insecure ∧
     a2RA.req.scheme = "http" ∧ a2RA.req.method = a1RA.req.method ∧
     a2RA.req.host = a1RA.req.host ∧ a2RA.req.path = a1RA.req.path ∧
     a2RA.req.headers = a1RA.req.headers ∧ a2RA.req.body = a1RA.req.body ∧
     a2RA.req.ctx = a1RA.req.ctx) ∧
    (b1RA.transport = .secure ∧ b2RA.transport = .insecure ∧
     b2RA.req.scheme = "http" ∧ b2RA.req.method = b1RA.req.method ∧
     b2RA.req.host = b1RA.req.host ∧ b2RA.req.path = b1RA.req.path ∧
     b2RA.req.headers = b1RA.req.headers ∧ b2RA.req.body = b1RA.req.body ∧
     b2RA.req.ctx = b1RA.req.ctx) := by
  have h := c7_fallback_frame envRefusedThenAccept clientBoth ctxLive [] []
    a1RA a2RA b1RA b2RA
  exact ⟨h.1 (by decide), h.2 (by decide)⟩

/-- C8: `NewSecureClient` returns an error, and hence no client, whenever the
TLS material cannot be loaded (missing or malformed cert/key/CA files) or the
underlying transport cannot be configured for TLS. -/
theorem c8_constructor_errors (auctioneerURL e : String) (transportOk : Bool)
    (requireTLS : Bool) (tracer : Nat) (cfg : TLSConfig) :
    NewSecureClient auctioneerURL (.error e) transportOk requireTLS tracer = .error e ∧
    NewSecureClient auctioneerURL (.ok cfg) false requireTLS tracer =
      .error "Invalid transport" := ⟨rfl, rfl⟩

/-- C9: a submit call never mutates the client configuration: the receiver
after any call (base URL, `requireTLS`, both transport handles and the trace
function handle included) equals the receiver before it. -/
theorem c9_config_immutable (env : Env) (c : auctioneerClient) (ctx : Ctx)
    (lrps : List LRPStartRequest) (tasks : List TaskStartRequest) :
    (RequestLRPAuctions env c ctx lrps).clientAfter = c ∧
    (RequestTaskAuctions env c ctx tasks).clientAfter = c := by
  rw [RequestLRPAuctions_eq, RequestTaskAuctions_eq]
  exact ⟨classify_clientAfter c _, classify_clientAfter c _⟩

/-- C10: a client built by `NewClient` has no insecure fallback transport
(even though `requireTLS` is false), so every submit call makes exactly one
HTTP attempt, on the primary transport, and the fallback branch is never
taken. -/
theorem c10_insecure_ctor_single_attempt (env : Env) (url : String) (tracer : Nat)
    (ctx : Ctx) (lrps : List LRPStartRequest) (tasks : List TaskStartRequest) :
    (NewClient url tracer).insecureHTTPClient = none ∧
    (NewClient url tracer).requireTLS = false ∧
    (RequestLRPAuctions env (NewClient url tracer) ctx lrps).attempts.map
        Attempt.transport = [.secure] ∧
    (RequestTaskAuctions env (NewClient url tracer) ctx tasks).attempts.map
        Attempt.transport = [.secure] := by
  refine ⟨rfl, rfl, ?_, ?_⟩
  · rw [RequestLRPAuctions_eq, classify_attempts]
    exact doRequest_no_insecure env _ _ rfl
  · rw [RequestTaskAuctions_eq, classify_attempts]
    exact doRequest_no_insecure env _ _ rfl

end Auctioneer
